import Mathlib

/-!
# BookSwap backend: swap negotiation and book catalogue

A shallow embedding of the route handlers of `src/routes/swapRoutes.js` and
`src/routes/bookRoutes.js` over the schemas of `src/models/Book.js` and
`src/models/Swap.js`.

The persistent store is a pair of document collections.  A handler is a pure
function from the store before the request, the authenticated user id
(`req.userId`, set by the token middleware) and the request payload to the HTTP
response and the store after the request.

Conventions:
* an id is a MongoDB ObjectId; `toString` of ObjectIds is injective, so the
  handlers' comparisons `x.toString() === req.userId` are equalities of ids;
* the `timestamps` option of the schemas (createdAt / updatedAt) is bookkeeping
  of the database driver and is not part of the documents below;
* the upload directory (cover image files) is an external blob store; only
  the `cover` reference kept in a book document is part of the store.
-/

namespace BookSwap

/-! ## Data model -/

/-- A MongoDB ObjectId. -/
abbrev ObjectId := Nat

/-- The `status` enum of `bookSchema`: `['available', 'swapped']`. -/
inductive BookStatus where
  | available
  | swapped
  deriving DecidableEq, Repr

/-- The `status` enum of `swapSchema`: `['pending', 'accepted', 'rejected']`. -/
inductive SwapStatus where
  | pending
  | accepted
  | rejected
  deriving DecidableEq, Repr

/-- A document of `bookSchema` (models/Book.js). -/
structure Book where
  _id : ObjectId
  title : String
  author : Option String
  description : Option String
  cover : Option String
  status : BookStatus
  owner : ObjectId
  deriving DecidableEq, Repr

/-- A document of `swapSchema` (models/Swap.js). -/
structure Swap where
  _id : ObjectId
  bookOffered : ObjectId
  bookRequested : ObjectId
  offeredBy : ObjectId
  requestedFrom : ObjectId
  status : SwapStatus
  deriving DecidableEq, Repr

/-- The persistent store: the `Book` and the `Swap` collection. -/
structure Store where
  books : List Book
  swaps : List Swap
  deriving DecidableEq, Repr

/-- An HTTP answer of a handler: `res.status(s).json(body)` with a payload, or
`res.status(s).json({ error: msg })`. -/
inductive Response (α : Type) where
  | json (status : Nat) (body : α)
  | error (status : Nat) (msg : String)
  deriving DecidableEq, Repr

/-- The HTTP status code of a response. -/
def Response.status {α : Type} : Response α → Nat
  | .json s _ => s
  | .error s _ => s

/-- Whether the response is a success payload (not an `error` answer). -/
def Response.isOk {α : Type} : Response α → Bool
  | .json _ _ => true
  | .error _ _ => false

/-- A book id as it arrives in a JSON request body. -/
inductive IdParam where
  -- an absent or falsy value (undefined, null, the empty string)
  | missing
  -- a truthy value that does not cast to an ObjectId (findById throws a CastError)
  | invalid
  -- a value that casts to the given ObjectId
  | oid (id : ObjectId)
  deriving DecidableEq, Repr

/-- The text fields of the body of `PUT /update/:id`; `none` is an absent field. -/
structure UpdateBody where
  title : Option String
  author : Option String
  description : Option String
  status : Option String
  deriving DecidableEq, Repr

/-! ## JavaScript and database primitives -/

/-- JavaScript `a || b` where `a` is an optional string and `b` a string:
`undefined` and the empty string are falsy. -/
def jsOrStr (a : Option String) (b : String) : String :=
  match a with
  | some s => if s = "" then b else s
  | none => b

/-- JavaScript `a || b` on optional strings. -/
def jsOr (a b : Option String) : Option String :=
  match a with
  | some s => if s = "" then b else some s
  | none => b

/-- Membership test `['available', 'swapped'].includes(status)` together with the
enum value the string stands for. -/
def BookStatus.ofString? : Option String → Option BookStatus
  | some "available" => some .available
  | some "swapped" => some .swapped
  | _ => none

/-- Membership test `['accepted', 'rejected'].includes(status)` together with the
enum value the string stands for. -/
def SwapStatus.decision? : Option String → Option SwapStatus
  | some "accepted" => some .accepted
  | some "rejected" => some .rejected
  | _ => none

/-- `Model.findById(id)`: the document of the collection with that `_id`. -/
def findById {α : Type} (key : α → ObjectId) (xs : List α) (id : ObjectId) : Option α :=
  xs.find? (fun x => key x == id)

/-- `doc.save()` of a document loaded from the collection: the stored document
with the same `_id` is replaced. -/
def save {α : Type} (key : α → ObjectId) : List α → α → List α
  | [], _ => []
  | x :: xs, doc => if key x == key doc then doc :: xs else x :: save key xs doc

/-- `doc.deleteOne()`: the stored document with that `_id` is removed. -/
def deleteOne {α : Type} (key : α → ObjectId) : List α → ObjectId → List α
  | [], _ => []
  | x :: xs, id => if key x == id then xs else x :: deleteOne key xs id

/-- `Model.findOneAndUpdate(filter, update, { new: true })`: the first document
matching the filter is updated in place; the answer is the updated document and
the new collection, or `none` when no document matches. -/
def findOneAndUpdate {α : Type} (filter : α → Bool) (update : α → α) :
    List α → Option (α × List α)
  | [] => none
  | x :: xs =>
    if filter x then some (update x, update x :: xs)
    else
      match findOneAndUpdate filter update xs with
      | none => none
      | some (d, ys) => some (d, x :: ys)

/-- Schema validation of a book on `save()`: `title` is required (a required
string must be non-empty); `status` is typed by its enum. -/
def validateBook (b : Book) : Bool := b.title != ""

/-! ## Swap routes (routes/swapRoutes.js) -/

/-- Handler of `POST /create` of the swap router, lines 9-53.  `newId` is the
fresh ObjectId that `new Swap(...)` generates. -/
def swapCreate (st : Store) (userId : ObjectId) (newId : ObjectId)
    (bookRequestedId bookOfferedId : IdParam) : Response Swap × Store :=
  match bookRequestedId, bookOfferedId with
  | .missing, _ => (.error 400 "Both offered and requested book IDs are required", st)
  | _, .missing => (.error 400 "Both offered and requested book IDs are required", st)
  | .invalid, _ => (.error 500 "Server error creating swap", st)
  | _, .invalid => (.error 500 "Server error creating swap", st)
  | .oid r, .oid o =>
    match findById Book._id st.books r, findById Book._id st.books o with
    | none, _ => (.error 404 "One or both books not found", st)
    | _, none => (.error 404 "One or both books not found", st)
    | some requestedBook, some offeredBook =>
      if requestedBook.owner = userId then
        (.error 400 "You cannot request your own book", st)
      else if offeredBook.owner ≠ userId then
        (.error 403 "You do not own the offered book", st)
      else
        let newSwap : Swap :=
          { _id := newId
            bookRequested := r
            bookOffered := o
            requestedFrom := requestedBook.owner
            offeredBy := userId
            status := .pending }
        (.json 201 newSwap, { st with swaps := st.swaps ++ [newSwap] })

/-- Handler of `PATCH /:id/status` of the swap router, lines 86-110.  The route
parameter is `none` when it does not cast to an ObjectId.  The `populate` of
`bookRequested` only decorates the loaded document and has no effect on what is
saved. -/
def swapPatchStatus (st : Store) (userId : ObjectId) (id : Option ObjectId)
    (status : Option String) : Response Swap × Store :=
  match SwapStatus.decision? status with
  | none => (.error 400 "Invalid status value", st)
  | some decision =>
    match id with
    | none => (.error 500 "Failed to update swap status", st)
    | some i =>
      match findById Swap._id st.swaps i with
      | none => (.error 404 "Swap not found", st)
      | some swap =>
        if swap.requestedFrom ≠ userId then
          (.error 403 "Not authorized to update this swap", st)
        else
          let updated : Swap := { swap with status := decision }
          (.json 200 updated, { st with swaps := save Swap._id st.swaps updated })

/-- Handler of `DELETE /:id` of the swap router, lines 113-132. -/
def swapDelete (st : Store) (userId : ObjectId) (id : Option ObjectId) :
    Response String × Store :=
  match id with
  | none => (.error 500 "Failed to delete swap", st)
  | some i =>
    match findById Swap._id st.swaps i with
    | none => (.error 404 "Swap not found", st)
    | some swap =>
      if swap.offeredBy ≠ userId ∧ swap.requestedFrom ≠ userId then
        (.error 403 "Not authorized to delete this swap", st)
      else
        (.json 200 "Swap deleted", { st with swaps := deleteOne Swap._id st.swaps swap._id })

/-! ## Book routes (routes/bookRoutes.js) -/

/-- The assignments of lines 61-77 of the book router on the loaded book: the
text fields are merged with `||`, the cover reference is replaced when a file
was uploaded.  The result is `none` when the merged `status` string is not a
value of the enum (the document then fails validation on `save`). -/
def mergeBook (book : Book) (body : UpdateBody) (file : Option String) : Option Book :=
  let status? : Option BookStatus :=
    match body.status with
    | some s => if s = "" then some book.status else BookStatus.ofString? (some s)
    | none => some book.status
  match status? with
  | none => none
  | some s =>
    some { book with
      title := jsOrStr body.title book.title
      author := jsOr body.author book.author
      description := jsOr body.description book.description
      status := s
      cover := match file with
        | some filename => some ("/uploads/" ++ filename)
        | none => book.cover }

/-- Handler of `PUT /update/:id` of the book router, lines 49-85.  `file` is the
name under which the upload middleware stored the new cover, if one was sent. -/
def bookUpdate (st : Store) (userId : ObjectId) (id : Option ObjectId)
    (body : UpdateBody) (file : Option String) : Response Book × Store :=
  match id with
  | none => (.error 500 "Failed to update book", st)
  | some i =>
    match findById Book._id st.books i with
    | none => (.error 404 "Book not found", st)
    | some book =>
      if book.owner ≠ userId then
        (.error 403 "Not allowed to edit this book", st)
      else
        match mergeBook book body file with
        | none => (.error 500 "Failed to update book", st)
        | some updatedBook =>
          if validateBook updatedBook then
            (.json 200 updatedBook, { st with books := save Book._id st.books updatedBook })
          else
            (.error 500 "Failed to update book", st)

/-- Handler of `PATCH /:id/status` of the book router, lines 88-106. -/
def bookPatchStatus (st : Store) (userId : ObjectId) (id : Option ObjectId)
    (status : Option String) : Response Book × Store :=
  match BookStatus.ofString? status with
  | none => (.error 400 "Invalid status value", st)
  | some s =>
    match id with
    | none => (.error 500 "Failed to update status", st)
    | some i =>
      match findOneAndUpdate (fun b : Book => b._id == i && b.owner == userId)
          (fun b => { b with status := s }) st.books with
      | none => (.error 404 "Book not found or not authorized", st)
      | some (book, books) => (.json 200 book, { st with books := books })

/-! ## Request traces -/

/-- A request to one of the modelled routes, with the authenticated user id. -/
inductive Request where
  | bookUpdate (userId : ObjectId) (id : Option ObjectId) (body : UpdateBody)
      (file : Option String)
  | bookPatchStatus (userId : ObjectId) (id : Option ObjectId) (status : Option String)
  | swapCreate (userId : ObjectId) (newId : ObjectId) (bookRequestedId bookOfferedId : IdParam)
  | swapPatchStatus (userId : ObjectId) (id : Option ObjectId) (status : Option String)
  | swapDelete (userId : ObjectId) (id : Option ObjectId)
  deriving DecidableEq, Repr

/-- The store after a request has been handled. -/
def step (st : Store) : Request → Store
  | .bookUpdate u i b f => (BookSwap.bookUpdate st u i b f).2
  | .bookPatchStatus u i s => (BookSwap.bookPatchStatus st u i s).2
  | .swapCreate u n r o => (BookSwap.swapCreate st u n r o).2
  | .swapPatchStatus u i s => (BookSwap.swapPatchStatus st u i s).2
  | .swapDelete u i => (BookSwap.swapDelete st u i).2

/-- The store after a sequence of requests, handled one after the other. -/
def run (st : Store) (reqs : List Request) : Store := reqs.foldl step st

/-! ## Example stores -/

/-- Book 1, owned by user 10 (user A of the scenario). -/
def book1 : Book :=
  { _id := 1, title := "Dune", author := some "Herbert", description := none,
    cover := none, status := .available, owner := 10 }

/-- Book 2, owned by user 20 (user B of the scenario). -/
def book2 : Book :=
  { _id := 2, title := "Emma", author := some "Austen", description := none,
    cover := none, status := .available, owner := 20 }

/-- Swap 100: user 20 offers book 2 for book 1 of user 10. -/
def swap100 (s : SwapStatus) : Swap :=
  { _id := 100, bookOffered := 2, bookRequested := 1, offeredBy := 20,
    requestedFrom := 10, status := s }

/-- Two books and no swap. -/
def store0 : Store := { books := [book1, book2], swaps := [] }

/-- Two books and swap 100 in the given status. -/
def store1 (s : SwapStatus) : Store := { books := [book1, book2], swaps := [swap100 s] }

/-! ## Lemmas on the database primitives -/

theorem findById_key {α : Type} (key : α → ObjectId) (xs : List α) (id : ObjectId) (x : α)
    (h : findById key xs id = some x) : key x = id := by
  have := List.find?_some h
  simpa using this

theorem findById_mem {α : Type} (key : α → ObjectId) (xs : List α) (id : ObjectId) (x : α)
    (h : findById key xs id = some x) : x ∈ xs :=
  List.mem_of_find?_eq_some h

theorem findById_save {α : Type} (key : α → ObjectId) (xs : List α) (id : ObjectId)
    (x doc : α) (h : findById key xs id = some x) (hk : key doc = id) :
    findById key (save key xs doc) id = some doc := by
  induction xs with
  | nil => simp [findById] at h
  | cons y ys ih =>
    unfold findById at h ih ⊢
    by_cases hy : key y = id
    · simp [save, hy, hk, List.find?_cons]
    · have h2 : List.find? (fun x => key x == id) ys = some x := by
        simpa [List.find?_cons, hy] using h
      simp [save, hy, hk, List.find?_cons, ih h2]

theorem save_map {α β : Type} (key : α → ObjectId) (f : α → β) (xs : List α) (id : ObjectId)
    (x doc : α) (h : findById key xs id = some x) (hk : key doc = id) (hf : f doc = f x) :
    (save key xs doc).map f = xs.map f := by
  induction xs with
  | nil => simp [save]
  | cons y ys ih =>
    unfold findById at h ih
    by_cases hy : key y = id
    · have hyx : y = x := by simpa [List.find?_cons, hy] using h
      subst hyx
      simp [save, hy, hk, hf]
    · have h2 : List.find? (fun x => key x == id) ys = some x := by
        simpa [List.find?_cons, hy] using h
      simp [save, hy, hk, ih h2]

theorem deleteOne_eq_erase {α : Type} [DecidableEq α] (key : α → ObjectId) (xs : List α)
    (id : ObjectId) (x : α) (h : findById key xs id = some x) :
    deleteOne key xs id = xs.erase x := by
  induction xs with
  | nil => simp [findById] at h
  | cons y ys ih =>
    unfold findById at h ih
    by_cases hy : key y = id
    · have hyx : y = x := by simpa [List.find?_cons, hy] using h
      subst hyx
      simp [deleteOne, hy]
    · have h2 : List.find? (fun x => key x == id) ys = some x := by
        simpa [List.find?_cons, hy] using h
      have hne : y ≠ x := by
        intro e
        have := findById_key key ys id x h2
        exact hy (e ▸ this)
      simp [deleteOne, hy, List.erase_cons, hne, ih h2]

theorem findOneAndUpdate_map {α β : Type} (filter : α → Bool) (update : α → α) (f : α → β)
    (hf : ∀ x, f (update x) = f x) (xs : List α) (d : α) (ys : List α)
    (h : findOneAndUpdate filter update xs = some (d, ys)) : ys.map f = xs.map f := by
  induction xs generalizing d ys with
  | nil => simp [findOneAndUpdate] at h
  | cons y rest ih =>
    by_cases hy : filter y = true
    · simp [findOneAndUpdate, hy] at h
      rw [← h.2]; simp [hf]
    · simp only [findOneAndUpdate, hy] at h
      cases hr : findOneAndUpdate filter update rest with
      | none => simp [hr] at h
      | some p =>
        obtain ⟨d2, ys2⟩ := p
        simp [hr] at h
        rw [← h.2]; simp [ih d2 ys2 hr]

theorem findOneAndUpdate_none {α : Type} (filter : α → Bool) (update : α → α) (xs : List α)
    (h : ∀ x ∈ xs, filter x = false) : findOneAndUpdate filter update xs = none := by
  induction xs with
  | nil => simp [findOneAndUpdate]
  | cons y rest ih =>
    have hy : filter y = false := h y (by simp)
    have hr := ih (fun x hx => h x (by simp [hx]))
    simp [findOneAndUpdate, hy, hr]

theorem findById_unique {α : Type} (key : α → ObjectId) (xs : List α) (id : ObjectId) (x : α)
    (hnd : (xs.map key).Nodup) (h : findById key xs id = some x) :
    ∀ y ∈ xs, key y = id → y = x := by
  induction xs with
  | nil => simp
  | cons z zs ih =>
    unfold findById at h ih
    simp only [List.map_cons, List.nodup_cons, List.mem_map, not_exists, not_and] at hnd
    intro y hy hky
    by_cases hz : key z = id
    · have hzx : z = x := by simpa [List.find?_cons, hz] using h
      rcases List.mem_cons.1 hy with e | hm
      · rw [e, hzx]
      · exact absurd (hky.trans hz.symm) (hnd.1 y hm)
    · have h2 : List.find? (fun x => key x == id) zs = some x := by
        simpa [List.find?_cons, hz] using h
      rcases List.mem_cons.1 hy with e | hm
      · exact absurd (e ▸ hky) hz
      · exact ih hnd.2 h2 y hm hky

theorem findById_map_owner (xs ys : List Book)
    (h : xs.map (fun b => (b._id, b.owner)) = ys.map (fun b => (b._id, b.owner)))
    (i : ObjectId) :
    (findById Book._id xs i).map Book.owner = (findById Book._id ys i).map Book.owner := by
  induction xs generalizing ys with
  | nil =>
    cases ys with
    | nil => rfl
    | cons y ys => simp at h
  | cons x xs ih =>
    cases ys with
    | nil => simp at h
    | cons y ys =>
      simp only [List.map_cons, List.cons.injEq, Prod.mk.injEq] at h
      obtain ⟨⟨h1, h2⟩, h3⟩ := h
      have ih2 := ih ys h3
      unfold findById at ih2 ⊢
      by_cases hx : x._id = i
      · have hy : y._id = i := h1 ▸ hx
        simp [List.find?_cons, hx, hy, h2]
      · have hy : ¬ y._id = i := h1 ▸ hx
        simpa [List.find?_cons, hx, hy] using ih2

theorem findById_none_filter (xs : List Book) (i u : ObjectId)
    (h : findById Book._id xs i = none) :
    ∀ x ∈ xs, (x._id == i && x.owner == u) = false := by
  intro x hx
  unfold findById at h
  have := List.find?_eq_none.1 h x hx
  simp at this
  simp [this]

theorem mergeBook_keeps (book ub : Book) (body : UpdateBody) (file : Option String)
    (h : mergeBook book body file = some ub) :
    ub._id = book._id ∧ ub.owner = book.owner ∧
    ub.title = jsOrStr body.title book.title ∧
    ub.author = jsOr body.author book.author ∧
    ub.description = jsOr body.description book.description := by
  unfold mergeBook at h
  simp only at h
  split at h
  · simp at h
  · simp only [Option.some.injEq] at h
    rw [← h]
    exact ⟨rfl, rfl, rfl, rfl, rfl⟩

theorem step_books (st : Store) (req : Request) :
    (step st req).books.map (fun b => (b._id, b.owner))
      = st.books.map (fun b => (b._id, b.owner)) := by
  cases req with
  | bookUpdate u i body file =>
    simp only [step, bookUpdate]
    cases i with
    | none => rfl
    | some i =>
      simp only
      cases hfind : findById Book._id st.books i with
      | none => rfl
      | some book =>
        simp only
        split
        · rfl
        · cases hm : mergeBook book body file with
          | none => rfl
          | some ub =>
            simp only
            split
            · have hk := mergeBook_keeps book ub body file hm
              have hid : ub._id = i := hk.1.trans (findById_key Book._id st.books i book hfind)
              exact save_map Book._id (fun b => (b._id, b.owner)) st.books i book ub hfind hid
                (by simp [hk.1, hk.2.1])
            · rfl
  | bookPatchStatus u i s =>
    simp only [step, bookPatchStatus]
    cases BookStatus.ofString? s with
    | none => rfl
    | some ns =>
      simp only
      cases i with
      | none => rfl
      | some i =>
        simp only
        cases hf : findOneAndUpdate (fun b : Book => b._id == i && b.owner == u)
            (fun b => { b with status := ns }) st.books with
        | none => rfl
        | some p =>
          obtain ⟨d, ys⟩ := p
          exact findOneAndUpdate_map (fun b : Book => b._id == i && b.owner == u)
            (fun b => { b with status := ns }) (fun b : Book => (b._id, b.owner))
            (fun _ => rfl) st.books d ys hf
  | swapCreate u n r o =>
    simp only [step, swapCreate]
    repeat' split
    all_goals rfl
  | swapPatchStatus u i s =>
    simp only [step, swapPatchStatus]
    repeat' split
    all_goals rfl
  | swapDelete u i =>
    simp only [step, swapDelete]
    repeat' split
    all_goals rfl

/-! ## Swap decisions -/

/-- C1 (as stated, refuted): swap 100 is already accepted and user 10 is its
`requestedFrom`; deciding `rejected` is answered 200 with the updated swap, not
with an error, and the stored status goes from accepted to rejected.  Deciding
twice in a row changes the status twice. -/
theorem swapPatchStatus_terminal_counterexample :
    findById Swap._id (store1 .accepted).swaps 100 = some (swap100 .accepted) ∧
    (swap100 .accepted).requestedFrom = 10 ∧
    swapPatchStatus (store1 .accepted) 10 (some 100) (some "rejected")
      = (.json 200 (swap100 .rejected), store1 .rejected) ∧
    (swapPatchStatus (store1 .accepted) 10 (some 100) (some "rejected")).1.isOk = true ∧
    (swap100 .rejected).status ≠ (swap100 .accepted).status ∧
    run (store1 .pending) [.swapPatchStatus 10 (some 100) (some "accepted"),
      .swapPatchStatus 10 (some 100) (some "rejected")] = store1 .rejected := by
  decide

/-- C1 (amended): for every stored swap, in any status (accepted and rejected
included), a decision `accepted` or `rejected` sent by the swap's `requestedFrom`
user is answered 200 with the swap carrying the decision as its status, and the
stored swap then has that status; the handler has no transition check. -/
theorem swapPatchStatus_overwrites_status (st : Store) (i : ObjectId) (swap : Swap)
    (s : Option String) (d : SwapStatus)
    (hfind : findById Swap._id st.swaps i = some swap)
    (hd : SwapStatus.decision? s = some d) :
    swapPatchStatus st swap.requestedFrom (some i) s
      = (.json 200 { swap with status := d },
         { st with swaps := save Swap._id st.swaps { swap with status := d } }) ∧
    findById Swap._id (swapPatchStatus st swap.requestedFrom (some i) s).2.swaps i
      = some { swap with status := d } := by
  have hk : swap._id = i := findById_key Swap._id st.swaps i swap hfind
  have h1 : swapPatchStatus st swap.requestedFrom (some i) s
      = (.json 200 { swap with status := d },
         { st with swaps := save Swap._id st.swaps { swap with status := d } }) := by
    simp [swapPatchStatus, hd, hfind]
  refine ⟨h1, ?_⟩
  rw [h1]
  exact findById_save Swap._id st.swaps i swap { swap with status := d } hfind hk

/-- Witness of C1 (amended): the accepted swap 100 is turned into a rejected one. -/
theorem swapPatchStatus_overwrites_status_witness :
    swapPatchStatus (store1 .accepted) (swap100 .accepted).requestedFrom (some 100)
        (some "rejected")
      = (.json 200 { swap100 .accepted with status := .rejected },
         { store1 .accepted with
           swaps := save Swap._id (store1 .accepted).swaps
             { swap100 .accepted with status := .rejected } }) ∧
    findById Swap._id
        (swapPatchStatus (store1 .accepted) (swap100 .accepted).requestedFrom (some 100)
          (some "rejected")).2.swaps 100
      = some { swap100 .accepted with status := .rejected } :=
  swapPatchStatus_overwrites_status (store1 .accepted) 100 (swap100 .accepted)
    (some "rejected") .rejected (by decide) (by decide)

/-- C2 (as stated, refuted): swap 100 is pending and both its books exist; user 10
(its `requestedFrom`) accepts it with success, the swap becomes accepted, and
both books still have status `available`, not `swapped`. -/
theorem swapPatchStatus_accept_counterexample :
    (swapPatchStatus (store1 .pending) 10 (some 100) (some "accepted")).1
      = .json 200 (swap100 .accepted) ∧
    (findById Book._id
      (swapPatchStatus (store1 .pending) 10 (some 100) (some "accepted")).2.books
      (swap100 .pending).bookOffered).map Book.status = some .available ∧
    (findById Book._id
      (swapPatchStatus (store1 .pending) 10 (some 100) (some "accepted")).2.books
      (swap100 .pending).bookRequested).map Book.status = some .available := by
  decide

/-- C2 (amended): when a pending swap exists together with its two referenced
books, the decision `accepted` sent by `requestedFrom` succeeds, the stored swap
gets status accepted, and the book collection is left as it was: both
referenced books are still found, unchanged (status included). -/
theorem swapPatchStatus_accept_keeps_books (st : Store) (i : ObjectId) (swap : Swap)
    (bo br : Book)
    (hfind : findById Swap._id st.swaps i = some swap)
    (_hpending : swap.status = .pending)
    (hbo : findById Book._id st.books swap.bookOffered = some bo)
    (hbr : findById Book._id st.books swap.bookRequested = some br) :
    (swapPatchStatus st swap.requestedFrom (some i) (some "accepted")).1
      = .json 200 { swap with status := .accepted } ∧
    findById Swap._id
        (swapPatchStatus st swap.requestedFrom (some i) (some "accepted")).2.swaps i
      = some { swap with status := .accepted } ∧
    (swapPatchStatus st swap.requestedFrom (some i) (some "accepted")).2.books = st.books ∧
    findById Book._id
        (swapPatchStatus st swap.requestedFrom (some i) (some "accepted")).2.books
        swap.bookOffered = some bo ∧
    findById Book._id
        (swapPatchStatus st swap.requestedFrom (some i) (some "accepted")).2.books
        swap.bookRequested = some br := by
  have hk : swap._id = i := findById_key Swap._id st.swaps i swap hfind
  have hd : SwapStatus.decision? (some "accepted") = some .accepted := rfl
  have h1 : swapPatchStatus st swap.requestedFrom (some i) (some "accepted")
      = (.json 200 { swap with status := .accepted },
         { st with swaps := save Swap._id st.swaps { swap with status := .accepted } }) := by
    simp [swapPatchStatus, hd, hfind]
  rw [h1]
  exact ⟨rfl, findById_save Swap._id st.swaps i swap _ hfind hk, rfl, hbo, hbr⟩

/-- Witness of C2 (amended): accepting the pending swap 100 leaves books 1 and 2
as they were. -/
theorem swapPatchStatus_accept_keeps_books_witness :
    (swapPatchStatus (store1 .pending) (swap100 .pending).requestedFrom (some 100)
      (some "accepted")).2.books = (store1 .pending).books :=
  (swapPatchStatus_accept_keeps_books (store1 .pending) 100 (swap100 .pending) book2 book1
    (by decide) (by decide) (by decide) (by decide)).2.2.1

/-- C3: for every stored swap and every decision `accepted` or `rejected`, a caller
other than the swap's `requestedFrom` (the `offeredBy` user included) is answered
403 and the store is unchanged; the `requestedFrom` user is never answered 403,
whatever status value is sent. -/
theorem swapPatchStatus_only_requestedFrom (st : Store) (u i : ObjectId) (swap : Swap)
    (s : Option String) (d : SwapStatus)
    (hfind : findById Swap._id st.swaps i = some swap)
    (hd : SwapStatus.decision? s = some d) :
    (u ≠ swap.requestedFrom →
      swapPatchStatus st u (some i) s
        = (.error 403 "Not authorized to update this swap", st)) ∧
    (∀ s2 : Option String,
      (swapPatchStatus st swap.requestedFrom (some i) s2).1.status ≠ 403) := by
  constructor
  · intro hu
    have hu2 : ¬ swap.requestedFrom = u := fun e => hu e.symm
    simp [swapPatchStatus, hd, hfind, hu2]
  · intro s2
    cases hd2 : SwapStatus.decision? s2 with
    | none => simp [swapPatchStatus, hd2, Response.status]
    | some d2 => simp [swapPatchStatus, hd2, hfind, Response.status]

/-- Witness of C3: user 20, who offered swap 100, may not decide it. -/
theorem swapPatchStatus_only_requestedFrom_witness :
    (swap100 .pending).offeredBy = 20 ∧
    swapPatchStatus (store1 .pending) 20 (some 100) (some "accepted")
      = (.error 403 "Not authorized to update this swap", store1 .pending) :=
  ⟨rfl, (swapPatchStatus_only_requestedFrom (store1 .pending) 20 100 (swap100 .pending)
    (some "accepted") .accepted (by decide) (by decide)).1 (by decide)⟩

/-! ## Swap proposals -/

/-- C4: when both books exist and the requested book is owned by the proposer, the
proposal is answered 400 "You cannot request your own book", whoever owns the
offered book, and the store (so the swap collection) is unchanged. -/
theorem swapCreate_selfSwap (st : Store) (u newId o r : ObjectId) (ob rb : Book)
    (ho : findById Book._id st.books o = some ob)
    (hr : findById Book._id st.books r = some rb)
    (hown : rb.owner = u) :
    swapCreate st u newId (.oid r) (.oid o)
      = (.error 400 "You cannot request your own book", st) := by
  simp [swapCreate, ho, hr, hown]

/-- Witness of C4: user 10 asks for their own book 1, offering book 2 of user 20. -/
theorem swapCreate_selfSwap_witness :
    swapCreate store0 10 100 (.oid 1) (.oid 2)
      = (.error 400 "You cannot request your own book", store0) :=
  swapCreate_selfSwap store0 10 100 2 1 book2 book1 (by decide) (by decide) (by decide)

/-- C5 (as stated, refuted): both books exist and the offered book 1 is owned by
user 10, not by the proposer 20, but the requested book 2 is the proposer's own:
the answer is 400 "You cannot request your own book", not the 403 of a book that
is not owned. -/
theorem swapCreate_notOwner_counterexample :
    findById Book._id store0.books 1 = some book1 ∧
    findById Book._id store0.books 2 = some book2 ∧
    book1.owner ≠ 20 ∧
    swapCreate store0 20 100 (.oid 2) (.oid 1)
      = (.error 400 "You cannot request your own book", store0) ∧
    (swapCreate store0 20 100 (.oid 2) (.oid 1)).1
      ≠ .error 403 "You do not own the offered book" := by
  decide

/-- C5 (amended): when both books exist, the offered book is owned by someone other
than the proposer and the requested book is not the proposer's own, the proposal
is answered 403 "You do not own the offered book" and the store (so the swap
collection) is unchanged. -/
theorem swapCreate_notOwner (st : Store) (u newId o r : ObjectId) (ob rb : Book)
    (ho : findById Book._id st.books o = some ob)
    (hr : findById Book._id st.books r = some rb)
    (hreq : rb.owner ≠ u)
    (hown : ob.owner ≠ u) :
    swapCreate st u newId (.oid r) (.oid o)
      = (.error 403 "You do not own the offered book", st) := by
  simp [swapCreate, ho, hr, hreq, hown]

/-- Witness of C5 (amended): user 30 offers book 2 of user 20 for book 1 of user 10. -/
theorem swapCreate_notOwner_witness :
    swapCreate store0 30 100 (.oid 1) (.oid 2)
      = (.error 403 "You do not own the offered book", store0) :=
  swapCreate_notOwner store0 30 100 2 1 book2 book1 (by decide) (by decide) (by decide)
    (by decide)

/-- C6: a proposal succeeds exactly when both ids resolve to books, the requested
book is not the proposer's and the offered book is the proposer's; and whenever
it succeeds the answer is 201, the books are untouched and exactly one swap is
appended, with `bookOffered` and `bookRequested` the two ids, `offeredBy` the
proposer, who owns the offered book, `requestedFrom` the owner of the requested
book, status pending, and `offeredBy` different from `requestedFrom`. -/
theorem swapCreate_success (st : Store) (u newId : ObjectId) (rq ofr : IdParam) :
    ((swapCreate st u newId rq ofr).1.isOk = true ↔
      ∃ o r ob rb, ofr = .oid o ∧ rq = .oid r ∧
        findById Book._id st.books o = some ob ∧
        findById Book._id st.books r = some rb ∧
        rb.owner ≠ u ∧ ob.owner = u) ∧
    ((swapCreate st u newId rq ofr).1.isOk = true →
      ∃ o r ob rb sw, ofr = .oid o ∧ rq = .oid r ∧
        findById Book._id st.books o = some ob ∧
        findById Book._id st.books r = some rb ∧
        swapCreate st u newId rq ofr
          = (.json 201 sw, { books := st.books, swaps := st.swaps ++ [sw] }) ∧
        sw = { _id := newId, bookOffered := o, bookRequested := r, offeredBy := u,
               requestedFrom := rb.owner, status := .pending } ∧
        sw.offeredBy = ob.owner ∧
        sw.offeredBy ≠ sw.requestedFrom ∧
        (swapCreate st u newId rq ofr).2.swaps.length = st.swaps.length + 1) := by
  have key : (swapCreate st u newId rq ofr).1.isOk = true →
      ∃ o r ob rb sw, ofr = .oid o ∧ rq = .oid r ∧
        findById Book._id st.books o = some ob ∧
        findById Book._id st.books r = some rb ∧
        swapCreate st u newId rq ofr
          = (.json 201 sw, { books := st.books, swaps := st.swaps ++ [sw] }) ∧
        sw = { _id := newId, bookOffered := o, bookRequested := r, offeredBy := u,
               requestedFrom := rb.owner, status := .pending } ∧
        sw.offeredBy = ob.owner ∧
        sw.offeredBy ≠ sw.requestedFrom ∧
        (swapCreate st u newId rq ofr).2.swaps.length = st.swaps.length + 1 ∧
        rb.owner ≠ u := by
    intro h
    cases rq with
    | missing => cases ofr <;> simp [swapCreate, Response.isOk] at h
    | invalid => cases ofr <;> simp [swapCreate, Response.isOk] at h
    | oid r =>
      cases ofr with
      | missing => simp [swapCreate, Response.isOk] at h
      | invalid => simp [swapCreate, Response.isOk] at h
      | oid o =>
        cases hr : findById Book._id st.books r with
        | none => simp [swapCreate, hr, Response.isOk] at h
        | some rb =>
          cases ho : findById Book._id st.books o with
          | none => simp [swapCreate, hr, ho, Response.isOk] at h
          | some ob =>
            by_cases h1 : rb.owner = u
            · simp [swapCreate, hr, ho, h1, Response.isOk] at h
            · by_cases h2 : ob.owner = u
              · refine ⟨o, r, ob, rb, _, rfl, rfl, ho, hr, ?_, rfl, h2.symm, ?_, ?_, h1⟩
                · simp [swapCreate, hr, ho, h1, h2]
                · exact fun e => h1 e.symm
                · simp [swapCreate, hr, ho, h1, h2]
              · simp [swapCreate, hr, ho, h1, h2, Response.isOk] at h
  refine ⟨⟨?_, ?_⟩, ?_⟩
  · intro h
    obtain ⟨o, r, ob, rb, sw, e1, e2, e3, e4, _, e6, e7, _, _, e10⟩ := key h
    refine ⟨o, r, ob, rb, e1, e2, e3, e4, e10, ?_⟩
    rw [← e7, e6]
  · rintro ⟨o, r, ob, rb, e1, e2, e3, e4, e5, e6⟩
    subst e1 e2
    simp [swapCreate, e3, e4, e5, e6, Response.isOk]
  · intro h
    obtain ⟨o, r, ob, rb, sw, e1, e2, e3, e4, e5, e6, e7, e8, e9, _⟩ := key h
    exact ⟨o, r, ob, rb, sw, e1, e2, e3, e4, e5, e6, e7, e8, e9⟩

/-- Witness of C6: user 20 offers book 2 for book 1 of user 10; the proposal
succeeds and swap 100 is created pending. -/
theorem swapCreate_success_witness :
    (swapCreate store0 20 100 (.oid 1) (.oid 2)).1.isOk = true ∧
    ∃ o r ob rb sw, IdParam.oid 2 = .oid o ∧ IdParam.oid 1 = .oid r ∧
        findById Book._id store0.books o = some ob ∧
        findById Book._id store0.books r = some rb ∧
        swapCreate store0 20 100 (.oid 1) (.oid 2)
          = (.json 201 sw, { books := store0.books, swaps := store0.swaps ++ [sw] }) ∧
        sw = { _id := 100, bookOffered := o, bookRequested := r, offeredBy := 20,
               requestedFrom := rb.owner, status := .pending } ∧
        sw.offeredBy = ob.owner ∧
        sw.offeredBy ≠ sw.requestedFrom ∧
        (swapCreate store0 20 100 (.oid 1) (.oid 2)).2.swaps.length
          = store0.swaps.length + 1 :=
  ⟨by decide, (swapCreate_success store0 20 100 (.oid 1) (.oid 2)).2 (by decide)⟩

/-! ## Swap withdrawal -/

/-- C7: for every stored swap, in any status, the delete request succeeds exactly
when the requester is the swap's `offeredBy` or `requestedFrom` user; it then
removes that swap (one document, found in the collection) and nothing else; every
other requester is answered 403 and the store is unchanged. -/
theorem swapDelete_participants (st : Store) (u i : ObjectId) (swap : Swap)
    (hfind : findById Swap._id st.swaps i = some swap) :
    ((swapDelete st u (some i)).1.isOk = true ↔
      (u = swap.offeredBy ∨ u = swap.requestedFrom)) ∧
    ((u = swap.offeredBy ∨ u = swap.requestedFrom) →
      swapDelete st u (some i)
        = (.json 200 "Swap deleted", { books := st.books, swaps := st.swaps.erase swap }) ∧
      swap ∈ st.swaps ∧
      (st.swaps.erase swap).length + 1 = st.swaps.length) ∧
    (¬ (u = swap.offeredBy ∨ u = swap.requestedFrom) →
      swapDelete st u (some i)
        = (.error 403 "Not authorized to delete this swap", st)) := by
  have hk : swap._id = i := findById_key Swap._id st.swaps i swap hfind
  have hmem : swap ∈ st.swaps := findById_mem Swap._id st.swaps i swap hfind
  have hdel : deleteOne Swap._id st.swaps swap._id = st.swaps.erase swap := by
    rw [hk]; exact deleteOne_eq_erase Swap._id st.swaps i swap hfind
  have hyes : (u = swap.offeredBy ∨ u = swap.requestedFrom) →
      swapDelete st u (some i)
        = (.json 200 "Swap deleted", { books := st.books, swaps := st.swaps.erase swap }) := by
    intro h
    have h2 : ¬ (swap.offeredBy ≠ u ∧ swap.requestedFrom ≠ u) := by
      rintro ⟨a, b⟩
      rcases h with e | e
      · exact a e.symm
      · exact b e.symm
    simp only [swapDelete, hfind]
    rw [if_neg h2, hdel]
  have hno : ¬ (u = swap.offeredBy ∨ u = swap.requestedFrom) →
      swapDelete st u (some i)
        = (.error 403 "Not authorized to delete this swap", st) := by
    intro h
    have h2 : swap.offeredBy ≠ u ∧ swap.requestedFrom ≠ u :=
      ⟨fun e => h (Or.inl e.symm), fun e => h (Or.inr e.symm)⟩
    simp only [swapDelete, hfind]
    rw [if_pos h2]
  refine ⟨⟨?_, ?_⟩, ?_, hno⟩
  · intro h
    by_contra hc
    rw [hno hc] at h
    simp [Response.isOk] at h
  · intro h
    rw [hyes h]
    rfl
  · intro h
    refine ⟨hyes h, hmem, ?_⟩
    rw [List.length_erase_of_mem hmem]
    have : 0 < st.swaps.length := List.length_pos_of_mem hmem
    omega

/-- Witness of C7: user 20, who offered the accepted swap 100, deletes it; user 30
may not. -/
theorem swapDelete_participants_witness :
    swapDelete (store1 .accepted) 20 (some 100)
      = (.json 200 "Swap deleted",
         { books := (store1 .accepted).books,
           swaps := (store1 .accepted).swaps.erase (swap100 .accepted) }) ∧
    swapDelete (store1 .accepted) 30 (some 100)
      = (.error 403 "Not authorized to delete this swap", store1 .accepted) :=
  ⟨((swapDelete_participants (store1 .accepted) 20 100 (swap100 .accepted)
      (by decide)).2.1 (by decide)).1,
   (swapDelete_participants (store1 .accepted) 30 100 (swap100 .accepted)
      (by decide)).2.2 (by decide)⟩

/-! ## Book catalogue -/

/-- C8: over any sequence of update-fields, set-status, propose, decide and withdraw
requests, with any payloads and any requesters, the book collection keeps the
same ids with the same owners, in the same order; so looking a book up by id
gives the same owner after the requests as before. -/
theorem owner_immutable (st : Store) (reqs : List Request) :
    (run st reqs).books.map (fun b => (b._id, b.owner))
      = st.books.map (fun b => (b._id, b.owner)) ∧
    ∀ i : ObjectId,
      (findById Book._id (run st reqs).books i).map Book.owner
        = (findById Book._id st.books i).map Book.owner := by
  have h : (run st reqs).books.map (fun b => (b._id, b.owner))
      = st.books.map (fun b => (b._id, b.owner)) := by
    unfold run
    induction reqs generalizing st with
    | nil => rfl
    | cons r rs ih =>
      rw [List.foldl_cons, ih (step st r), step_books]
  exact ⟨h, fun i => findById_map_owner _ _ h i⟩

/-- C9 (as stated, refuted): book 1 exists and is owned by user 10; user 20 asks to
set its status to `swapped`; the answer is 404 "Book not found or not
authorized", not 403, although the id resolves. -/
theorem bookPatchStatus_counterexample :
    findById Book._id store0.books 1 = some book1 ∧
    book1.owner ≠ 20 ∧
    bookPatchStatus store0 20 (some 1) (some "swapped")
      = (.error 404 "Book not found or not authorized", store0) ∧
    (bookPatchStatus store0 20 (some 1) (some "swapped")).1.status ≠ 403 := by
  decide

/-- C9 (amended): in a collection with unique ids, for every stored book, every new
status `available` or `swapped` and every requester other than the owner, the
set-status request is answered 404 "Book not found or not authorized" and the
store is unchanged; the same 404 is the answer when the id resolves to no book;
the route never answers 403. -/
theorem bookPatchStatus_nonOwner (st : Store) (u i : ObjectId) (b : Book)
    (s : Option String) (ns : BookStatus)
    (hnd : (st.books.map Book._id).Nodup)
    (hfind : findById Book._id st.books i = some b)
    (hs : BookStatus.ofString? s = some ns)
    (hu : u ≠ b.owner) :
    bookPatchStatus st u (some i) s
      = (.error 404 "Book not found or not authorized", st) ∧
    findById Book._id (bookPatchStatus st u (some i) s).2.books i = some b ∧
    (∀ j u2 : ObjectId, findById Book._id st.books j = none →
      bookPatchStatus st u2 (some j) s
        = (.error 404 "Book not found or not authorized", st)) ∧
    (∀ (u2 : ObjectId) (i2 : Option ObjectId) (s2 : Option String),
      (bookPatchStatus st u2 i2 s2).1.status ≠ 403) := by
  have huniq := findById_unique Book._id st.books i b hnd hfind
  have hnone : findOneAndUpdate (fun x : Book => x._id == i && x.owner == u)
      (fun x => { x with status := ns }) st.books = none := by
    apply findOneAndUpdate_none
    intro x hx
    by_cases hxi : x._id = i
    · have hxb : x = b := huniq x hx hxi
      have : ¬ x.owner = u := by rw [hxb]; exact fun e => hu e.symm
      simp [this]
    · simp [hxi]
  have h1 : bookPatchStatus st u (some i) s
      = (.error 404 "Book not found or not authorized", st) := by
    simp only [bookPatchStatus, hs, hnone]
  refine ⟨h1, ?_, ?_, ?_⟩
  · rw [h1]; exact hfind
  · intro j u2 hj
    have hn2 := findOneAndUpdate_none (fun x : Book => x._id == j && x.owner == u2)
      (fun x => { x with status := ns }) st.books (findById_none_filter st.books j u2 hj)
    simp only [bookPatchStatus, hs, hn2]
  · intro u2 i2 s2
    simp only [bookPatchStatus]
    split
    · simp [Response.status]
    · split
      · simp [Response.status]
      · split <;> simp [Response.status]

/-- Witness of C9 (amended): user 20 asks to set the status of book 1 of user 10. -/
theorem bookPatchStatus_nonOwner_witness :
    bookPatchStatus store0 20 (some 1) (some "swapped")
      = (.error 404 "Book not found or not authorized", store0) :=
  (bookPatchStatus_nonOwner store0 20 1 book1 (some "swapped") .swapped (by decide)
    (by decide) (by decide) (by decide)).1

/-- C10 (as stated, refuted): the owner of book 1 sends a patch whose `author` is
the empty string; the update succeeds and the author is still "Herbert", not
the empty string of the patch. -/
theorem bookUpdate_counterexample :
    bookUpdate store0 book1.owner (some 1)
        { title := none, author := some "", description := none, status := none } none
      = (.json 200 book1, store0) ∧
    book1.author = some "Herbert" ∧
    book1.author ≠ some "" := by
  decide

/-- C10 (amended): for every stored book, whose required title is non-empty, and
every patch whose `status` is absent, empty, `available` or `swapped`, the update
sent by the owner succeeds and stores a book in which each of title, author and
description is the patch value when the patch gives a non-empty string and the old
value when the patch value is absent or the empty string; a requester other
than the owner is answered 403 and an id that resolves to no book 404, both with
the store unchanged. -/
theorem bookUpdate_merge (st : Store) (i : ObjectId) (book : Book) (body : UpdateBody)
    (file : Option String)
    (hfind : findById Book._id st.books i = some book) :
    (book.title ≠ "" →
      (body.status = none ∨ body.status = some "" ∨
        (BookStatus.ofString? body.status).isSome = true) →
      ∃ ub : Book,
        bookUpdate st book.owner (some i) body file
          = (.json 200 ub, { books := save Book._id st.books ub, swaps := st.swaps }) ∧
        findById Book._id (bookUpdate st book.owner (some i) body file).2.books i = some ub ∧
        (∀ t, body.title = some t → t ≠ "" → ub.title = t) ∧
        ((body.title = none ∨ body.title = some "") → ub.title = book.title) ∧
        (∀ t, body.author = some t → t ≠ "" → ub.author = some t) ∧
        ((body.author = none ∨ body.author = some "") → ub.author = book.author) ∧
        (∀ t, body.description = some t → t ≠ "" → ub.description = some t) ∧
        ((body.description = none ∨ body.description = some "") →
          ub.description = book.description)) ∧
    (∀ u : ObjectId, u ≠ book.owner →
      bookUpdate st u (some i) body file
        = (.error 403 "Not allowed to edit this book", st)) ∧
    (∀ j u : ObjectId, findById Book._id st.books j = none →
      bookUpdate st u (some j) body file = (.error 404 "Book not found", st)) := by
  refine ⟨?_, ?_, ?_⟩
  · intro htitle hstatus
    have hm : ∃ ub, mergeBook book body file = some ub := by
      rcases hstatus with h | h | h
      · simp [mergeBook, h]
      · simp [mergeBook, h]
      · cases hb : body.status with
        | none => simp [mergeBook, hb]
        | some t =>
          by_cases ht : t = ""
          · simp [mergeBook, hb, ht]
          · rw [hb] at h
            obtain ⟨ns, hns⟩ := Option.isSome_iff_exists.1 h
            simp [mergeBook, hb, ht, hns]
    obtain ⟨ub, hm⟩ := hm
    obtain ⟨hid, _, htl, hau, hde⟩ := mergeBook_keeps book ub body file hm
    have hk : ub._id = i := hid.trans (findById_key Book._id st.books i book hfind)
    have hv : ub.title ≠ "" := by
      rw [htl]
      unfold jsOrStr
      split
      · split
        · exact htitle
        · assumption
      · exact htitle
    have h1 : bookUpdate st book.owner (some i) body file
        = (.json 200 ub, { books := save Book._id st.books ub, swaps := st.swaps }) := by
      simp only [bookUpdate, hfind, hm, validateBook]
      simp [hv]
    refine ⟨ub, h1, ?_, ?_, ?_, ?_, ?_, ?_, ?_⟩
    · rw [h1]
      exact findById_save Book._id st.books i book ub hfind hk
    · intro t ht hne; simp [htl, jsOrStr, ht, hne]
    · rintro (h | h) <;> simp [htl, jsOrStr, h]
    · intro t ht hne; simp [hau, jsOr, ht, hne]
    · rintro (h | h) <;> simp [hau, jsOr, h]
    · intro t ht hne; simp [hde, jsOr, ht, hne]
    · rintro (h | h) <;> simp [hde, jsOr, h]
  · intro u hu
    have hu2 : ¬ book.owner = u := fun e => hu e.symm
    simp [bookUpdate, hfind, hu2]
  · intro j u hj
    simp [bookUpdate, hj]

/-- Witness of C10 (amended): the owner of book 1 sends a new title and an empty
author; the title is replaced and the author kept. -/
theorem bookUpdate_merge_witness :
    ∃ ub : Book,
      bookUpdate store0 book1.owner (some 1)
          { title := some "Dune II", author := some "", description := none,
            status := some "swapped" } none
        = (.json 200 ub, { books := save Book._id store0.books ub, swaps := store0.swaps }) ∧
      ub.title = "Dune II" ∧ ub.author = book1.author :=
  have h := (bookUpdate_merge store0 1 book1
    { title := some "Dune II", author := some "", description := none,
      status := some "swapped" } none (by decide)).1 (by decide) (by decide)
  h.elim fun ub hub =>
    ⟨ub, hub.1, hub.2.2.1 "Dune II" rfl (by decide), hub.2.2.2.2.2.1 (Or.inr rfl)⟩

end BookSwap
